import Mathlib

/-!
Shallow embedding of the Xtirpa 3D scene-configurator repository.

Sources embedded here:
* the shared type declarations (`SceneObject`, `Measurement`, `DropboxFile`,
  `ToolMode`, `WatermarkConfig`);
* the application shell (`src/unnamed/part_000`): `handleAddObject`,
  `handleUpdateObject`, `handleGenerateRender`, plus the wiring
  `onAddMeasurement = append` and the rendering modal condition;
* the toolbar (`src/unnamed/part_001`): the Generate Render button;
* `components/Viewer3D.tsx`: `handleCanvasClick`, the `SceneItem` selection
  wiring, and the click-dispatch structure of the viewport;
* `components/AssetBrowser.tsx`: `SYSTEM_PARTS`, `togglePart`,
  `handleAssemble`, `handleUpload`.

Numbers that the code stores in JavaScript floats are modelled as exact
rationals (`ℚ`); the one square root (three.js `Vector3.distanceTo`) is
modelled over the reals.
-/

namespace Configurator

/-- Geometry tags for primitives, from the `geometryType` union in the
shared type declarations. -/
inductive GeometryType where
  | box
  | sphere
  | cylinder
deriving DecidableEq, Repr

/-- The `type` union of `SceneObject` (`'primitive' | 'uploaded'`). -/
inductive ObjectKind where
  | primitive
  | uploaded
deriving DecidableEq, Repr, Inhabited

/-- The `type` union of `DropboxFile` (`'folder' | 'file'`). -/
inductive FileKind where
  | folder
  | file
deriving DecidableEq, Repr

/-- A 3-component vector, as used for `position`, `rotation` and `scale`. -/
structure Vec3 where
  x : ℚ
  y : ℚ
  z : ℚ
deriving DecidableEq, Repr, Inhabited

/-- The `ToolMode` enum from the shared type declarations. -/
inductive ToolMode where
  | SELECT
  | MOVE
  | ROTATE
  | SCALE
  | MEASURE
deriving DecidableEq, Repr

/-- The `SceneObject` interface from the shared type declarations. -/
structure SceneObject where
  id : String
  name : String
  type : ObjectKind
  geometryType : Option GeometryType
  fileUrl : Option String
  position : Vec3
  rotation : Vec3
  scale : Vec3
  color : String
deriving DecidableEq, Repr, Inhabited

/-- TypeScript `Partial<SceneObject>`: every field optional (`none` stands
for an absent field). -/
structure PartialSceneObject where
  id : Option String := none
  name : Option String := none
  type : Option ObjectKind := none
  geometryType : Option GeometryType := none
  fileUrl : Option String := none
  position : Option Vec3 := none
  rotation : Option Vec3 := none
  scale : Option Vec3 := none
  color : Option String := none
deriving DecidableEq, Repr, Inhabited

/-- Squared Euclidean distance between two points, in exact rationals. -/
def dist3Sq (a b : Vec3) : ℚ :=
  (b.x - a.x) ^ 2 + (b.y - a.y) ^ 2 + (b.z - a.z) ^ 2

/-- Euclidean distance, three.js `Vector3.prototype.distanceTo`. -/
noncomputable def dist3 (a b : Vec3) : ℝ :=
  Real.sqrt ((dist3Sq a b : ℚ) : ℝ)

/-- The `Measurement` interface from the shared type declarations. -/
structure Measurement where
  id : String
  startPoint : Vec3
  endPoint : Vec3
  distance : ℝ

/-- The `WatermarkConfig` interface from the shared type declarations. -/
structure WatermarkConfig where
  text : String
  enabled : Bool
  opacity : ℚ
deriving DecidableEq, Repr

/-- The `DropboxFile` interface from the shared type declarations. -/
structure DropboxFile where
  id : String
  name : String
  type : FileKind
  geometryType : Option GeometryType
  size : Option String
deriving DecidableEq, Repr

/-- The top-level state held by the application shell (`App` in
`src/unnamed/part_000`): the `useState` cells `objects`, `selectedId`,
`mode`, `background`, `measurements`, `watermark`, `isRendering`,
`renderResult`. -/
structure AppState where
  objects : List SceneObject
  selectedId : Option String
  mode : ToolMode
  background : String
  measurements : List Measurement
  watermark : WatermarkConfig
  isRendering : Bool
  renderResult : Option String

/-- The initial values of the shell state cells. -/
def initialAppState : AppState where
  objects := []
  selectedId := none
  mode := ToolMode.SELECT
  background := "#1a1a1d"
  measurements := []
  watermark := { text := "DRAFT", enabled := true, opacity := 1 / 2 }
  isRendering := false
  renderResult := none

/-- JavaScript `a || d` on an optional string field: an absent field and
the empty string are both falsy and fall back to the default. -/
def jsOr (v : Option String) (d : String) : String :=
  match v with
  | none => d
  | some s => if s = "" then d else s

/-- The id generator of `handleAddObject`:
`` `${Date.now()}-${Math.random().toString(36).substr(2, 9)}` ``.
The clock reading and the random suffix are inputs from the environment. -/
def mkUniqueId (now : Nat) (rand : String) : String :=
  Nat.repr now ++ "-" ++ rand

/-- The `newObj` record built by `handleAddObject`
(`src/unnamed/part_000`, lines 27-37): `||`-defaults for `name`, `type`,
`position`, `rotation`, `scale`, `color`; `geometryType` and `fileUrl`
copied through. -/
def mkNewObject (uniqueId : String) (objData : PartialSceneObject) : SceneObject where
  id := uniqueId
  name := jsOr objData.name "New Object"
  type := objData.type.getD ObjectKind.primitive
  geometryType := objData.geometryType
  fileUrl := objData.fileUrl
  position := objData.position.getD ⟨0, 0, 0⟩
  rotation := objData.rotation.getD ⟨0, 0, 0⟩
  scale := objData.scale.getD ⟨1, 1, 1⟩
  color := jsOr objData.color "#ffffff"

/-- `handleAddObject` (`src/unnamed/part_000`, lines 23-42): append the new
object, select its id, switch the tool mode to MOVE.  The generated unique
id is passed in explicitly. -/
def handleAddObject (uniqueId : String) (objData : PartialSceneObject) (s : AppState) : AppState :=
  { s with
    objects := s.objects ++ [mkNewObject uniqueId objData]
    selectedId := some uniqueId
    mode := ToolMode.MOVE }

/-- JavaScript object spread `{ ...o, ...updates }`: every field present in
`updates` overrides the corresponding field of `o`. -/
def mergeObject (o : SceneObject) (u : PartialSceneObject) : SceneObject where
  id := u.id.getD o.id
  name := u.name.getD o.name
  type := u.type.getD o.type
  geometryType := u.geometryType.or o.geometryType
  fileUrl := u.fileUrl.or o.fileUrl
  position := u.position.getD o.position
  rotation := u.rotation.getD o.rotation
  scale := u.scale.getD o.scale
  color := u.color.getD o.color

/-- `handleUpdateObject` (`src/unnamed/part_000`, lines 44-46):
`setObjects(prev => prev.map(o => o.id === id ? { ...o, ...updates } : o))`. -/
def handleUpdateObject (targetId : String) (u : PartialSceneObject) (s : AppState) : AppState :=
  { s with
    objects := s.objects.map (fun o => if o.id = targetId then mergeObject o u else o) }

/-- A finite sequence of `handleAddObject` calls (id generated by the
environment, payload from the caller), applied left to right. -/
def addObjects (calls : List (String × PartialSceneObject)) (s : AppState) : AppState :=
  calls.foldl (fun st c => handleAddObject c.1 c.2 st) s

/-! ### Viewer3D interaction (`components/Viewer3D.tsx`) -/

/-- `handleCanvasClick` (`Viewer3D.tsx`, lines 237-258), combined with the
shell wiring `onAddMeasurement = (m) => setMeasurements(prev => [...prev, m])`
(`src/unnamed/part_000`, line 103).  Inputs: the tool mode, the id the
environment generates for a new measurement (`Date.now().toString()`), the
clicked 3D point, and the three state cells the handler touches
(`measuringStart`, `measurements`, `selectedId`).  In MEASURE mode a first
click stores the point as the pending start, a second click appends one
measurement whose `distance` is the Euclidean distance of the two points and
clears the pending start; in SELECT mode the click clears the selection;
other modes do nothing. -/
noncomputable def handleCanvasClick (mode : ToolMode) (newId : String) (p : Vec3)
    (measuringStart : Option Vec3) (measurements : List Measurement)
    (selectedId : Option String) :
    Option Vec3 × List Measurement × Option String :=
  match mode with
  | ToolMode.MEASURE =>
    match measuringStart with
    | none => (some p, measurements, selectedId)
    | some start =>
      (none,
       measurements ++
         [{ id := newId, startPoint := start, endPoint := p, distance := dist3 start p }],
       selectedId)
  | ToolMode.SELECT => (measuringStart, measurements, none)
  | _ => (measuringStart, measurements, selectedId)

/-- The selection produced when a `SceneItem` mesh is clicked: the mesh
`onClick` stops propagation and calls the `onSelect` prop, which Viewer3D
wires as `if (mode !== ToolMode.MEASURE) onSelect(obj.id)`
(`Viewer3D.tsx`, lines 119-122 and 291-295). -/
def sceneItemClickSelect (mode : ToolMode) (objId : String) (selectedId : Option String) :
    Option String :=
  if mode ≠ ToolMode.MEASURE then some objId else selectedId

/-- The invisible mesh of `Viewer3D.tsx` lines 300-312 carries a MEASURE
click handler but has no geometry child (its body is only a comment), so a
ray cast can never hit it. -/
def invisibleMeasureMeshGeometry : Option GeometryType := none

/-- The group of `Viewer3D.tsx` lines 316-326 carries a MEASURE click
handler but wraps no children (its body is only a comment), so no ray-cast
hit can ever bubble to it. -/
def measureGroupChildCount : Nat := 0

/-- The three viewer-visible state cells a viewport click can touch. -/
structure ViewerState where
  selectedId : Option String
  measuringStart : Option Vec3
  measurements : List Measurement

/-- Where a viewport click can land.  A ray cast either hits the mesh of a
rendered `SceneItem` (the only hittable geometry in the scene: the
measurement mesh is geometry-free and the measurement group is childless,
see `invisibleMeasureMeshGeometry` and `measureGroupChildCount`), or it
hits nothing and only the canvas-level `onClick` fires. -/
inductive ClickTarget where
  | objectMesh (objId : String) (point : Vec3)
  | emptySpace

/-- One viewport click, dispatched as the source wires it: a mesh hit runs
the `SceneItem` handler (stop propagation, then the guarded `onSelect`,
`Viewer3D.tsx` lines 119-122 and 291-295); a miss reaches only the
canvas-level handler, which acts only in SELECT mode
(`Viewer3D.tsx` lines 276-280). -/
def viewerClick (mode : ToolMode) (t : ClickTarget) (s : ViewerState) : ViewerState :=
  match t with
  | ClickTarget.objectMesh objId _ =>
    { s with selectedId := sceneItemClickSelect mode objId s.selectedId }
  | ClickTarget.emptySpace =>
    if mode = ToolMode.SELECT then { s with selectedId := none } else s

/-! ### Asset catalog (`components/AssetBrowser.tsx`) -/

/-- The static `SYSTEM_PARTS` list (`AssetBrowser.tsx`, lines 12-21). -/
def SYSTEM_PARTS : List DropboxFile :=
  [⟨"p1", "Aluminium Extrusion 40x40", FileKind.file, some GeometryType.box, some "2.1MB"⟩,
   ⟨"p2", "L-Bracket Joint", FileKind.file, some GeometryType.box, some "0.4MB"⟩,
   ⟨"p3", "Heavy Duty Caster", FileKind.file, some GeometryType.sphere, some "1.2MB"⟩,
   ⟨"p4", "Mounting Plate", FileKind.file, some GeometryType.box, some "0.8MB"⟩,
   ⟨"p5", "Hydraulic Piston", FileKind.file, some GeometryType.cylinder, some "1.5MB"⟩,
   ⟨"p6", "Control Panel Housing", FileKind.file, some GeometryType.box, some "3.2MB"⟩,
   ⟨"p7", "Safety Guard Panel", FileKind.file, some GeometryType.box, some "1.1MB"⟩,
   ⟨"p8", "M8 Fastener Kit", FileKind.file, some GeometryType.sphere, some "0.1MB"⟩]

/-- `togglePart` (`AssetBrowser.tsx`, lines 27-35).  The JavaScript `Set`
is modelled as its insertion-ordered element list. -/
def togglePart (partId : String) (selected : List String) : List String :=
  if partId ∈ selected then selected.filter (fun i => i ≠ partId) else selected ++ [partId]

/-- The `onAddObject` payload `handleAssemble` builds for one found part at
batch index `index` (`AssetBrowser.tsx`, lines 43-50): the part name and
geometry, a fixed light gray, and an x offset of `index * 1.5`. -/
def assemblePayload (part : DropboxFile) (index : Nat) : PartialSceneObject where
  name := some part.name
  type := some ObjectKind.primitive
  geometryType := part.geometryType
  color := some "#e0e0e0"
  position := some ⟨(index : ℚ) * (3 / 2), 0, 0⟩

/-- The loop of `handleAssemble` (`AssetBrowser.tsx`, lines 38-53): walk
the selected ids in set order, look each up in `SYSTEM_PARTS`, emit a
payload for each hit, and advance the batch index only on a hit. -/
def assembleGo : List String → Nat → List PartialSceneObject
  | [], _ => []
  | i :: rest, index =>
    match SYSTEM_PARTS.find? (fun part => part.id == i) with
    | some part => assemblePayload part index :: assembleGo rest (index + 1)
    | none => assembleGo rest index

/-- `handleAssemble` (`AssetBrowser.tsx`, lines 37-56): the ordered list of
`onAddObject` payloads, and the cleared selection set. -/
def handleAssemble (selected : List String) : List PartialSceneObject × List String :=
  (assembleGo selected 0, [])

/-- A file delivered by the upload input. -/
structure UploadFile where
  name : String

/-- `handleUpload` (`AssetBrowser.tsx`, lines 58-70): take the first file of
the change event if any (`e.target.files?.[0]`; `if (!file) return`),
allocate one object URL for it, and emit one `uploaded` payload positioned
at `[0, 2, 0]` with fixed gray.  Returns the payload (if any) and the list
of object URLs allocated. -/
def handleUpload (files : List UploadFile) (mkObjectURL : UploadFile → String) :
    Option PartialSceneObject × List String :=
  match files.head? with
  | none => (none, [])
  | some file =>
    let url := mkObjectURL file
    (some { name := some file.name, type := some ObjectKind.uploaded, fileUrl := some url,
            color := some "#cccccc", position := some ⟨0, 2, 0⟩ },
     [url])

/-- The upload path seen from the shell: when `handleUpload` emits a
payload it goes through `onAddObject = handleAddObject`, otherwise the
shell state is untouched. -/
def appUpload (files : List UploadFile) (mkObjectURL : UploadFile → String)
    (uniqueId : String) (s : AppState) : AppState × List String :=
  match handleUpload files mkObjectURL with
  | (none, urls) => (s, urls)
  | (some payload, urls) => (handleAddObject uniqueId payload s, urls)

/-! ### Render bridge (`src/unnamed/part_000`, lines 53-73, and the toolbar) -/

/-- The first statement of the guarded body of `handleGenerateRender`:
`setIsRendering(true)`. -/
def startRender (s : AppState) : AppState :=
  { s with isRendering := true }

/-- The `try`/`catch`/`finally` of `handleGenerateRender` once the render
call has settled: on success the result is stored; on failure exactly one
alert (`"Rendering failed. Please try again."`) and one `console.error`
happen and the result cell is untouched; the `finally` clears
`isRendering` on both paths.  Returns the new state, the alerts shown and
the number of log calls. -/
def finishRender (outcome : Except String String) (s : AppState) :
    AppState × List String × Nat :=
  match outcome with
  | Except.ok r => ({ s with isRendering := false, renderResult := some r }, [], 0)
  | Except.error _ => ({ s with isRendering := false }, ["Rendering failed. Please try again."], 1)

/-- `handleGenerateRender` (`src/unnamed/part_000`, lines 53-73): if the
canvas ref is empty the handler returns before touching any state;
otherwise it sets the rendering flag and runs the settled render call. -/
def handleGenerateRender (canvasReady : Bool) (outcome : Except String String) (s : AppState) :
    AppState × List String × Nat :=
  if canvasReady then finishRender outcome (startRender s) else (s, [], 0)

/-- The `disabled` state of the Generate Render button
(`src/unnamed/part_001`, lines 120-126): the `<button>` carries no
`disabled` attribute at all, whatever the rendering flag says. -/
def generateRenderButtonDisabled (_isRendering : Bool) : Bool := false

/-- The render condition of the full-screen modal overlay
(`src/unnamed/part_000`, line 137): `isRendering || renderResult`. -/
def renderModalVisible (s : AppState) : Bool :=
  s.isRendering || s.renderResult.isSome

/-! ### Decimal representation helpers

Used to show the id format `` `${Date.now()}-${suffix}` `` is injective in
its two inputs, so distinct generator draws give distinct object ids. -/

/-- Numeric value of a decimal digit character. -/
def charVal (c : Char) : Nat :=
  if c = '0' then 0 else if c = '1' then 1 else if c = '2' then 2 else if c = '3' then 3
  else if c = '4' then 4 else if c = '5' then 5 else if c = '6' then 6 else if c = '7' then 7
  else if c = '8' then 8 else 9

/-- Value of a most-significant-first decimal digit string. -/
def parseDec (l : List Char) : Nat :=
  l.foldl (fun a c => 10 * a + charVal c) 0

/-! ## Helper lemmas -/

lemma digitChar_ne_dash (n : Nat) : Nat.digitChar n ≠ '-' := by
  rcases Nat.lt_or_ge n 16 with h | h
  · interval_cases n <;> decide
  · have h0 : ¬ n = 0 := by omega
    have h1 : ¬ n = 1 := by omega
    have h2 : ¬ n = 2 := by omega
    have h3 : ¬ n = 3 := by omega
    have h4 : ¬ n = 4 := by omega
    have h5 : ¬ n = 5 := by omega
    have h6 : ¬ n = 6 := by omega
    have h7 : ¬ n = 7 := by omega
    have h8 : ¬ n = 8 := by omega
    have h9 : ¬ n = 9 := by omega
    have h10 : ¬ n = 10 := by omega
    have h11 : ¬ n = 11 := by omega
    have h12 : ¬ n = 12 := by omega
    have h13 : ¬ n = 13 := by omega
    have h14 : ¬ n = 14 := by omega
    have h15 : ¬ n = 15 := by omega
    simp only [Nat.digitChar, if_neg h0, if_neg h1, if_neg h2, if_neg h3, if_neg h4,
      if_neg h5, if_neg h6, if_neg h7, if_neg h8, if_neg h9, if_neg h10, if_neg h11,
      if_neg h12, if_neg h13, if_neg h14, if_neg h15]
    decide

lemma charVal_digitChar (m : Nat) (h : m < 10) : charVal (Nat.digitChar m) = m := by
  revert h
  revert m
  decide

lemma foldl_parse (l : List Char) (a : Nat) :
    l.foldl (fun x c => 10 * x + charVal c) a = a * 10 ^ l.length + parseDec l := by
  induction l generalizing a with
  | nil => simp [parseDec]
  | cons c t ih =>
    simp only [List.foldl_cons, parseDec, List.length_cons]
    rw [ih (10 * a + charVal c), ih (10 * 0 + charVal c)]
    ring

lemma parseDec_cons (c : Char) (l : List Char) :
    parseDec (c :: l) = charVal c * 10 ^ l.length + parseDec l := by
  simp only [parseDec, List.foldl_cons]
  have := foldl_parse l (10 * 0 + charVal c)
  simpa [parseDec] using this

lemma toDigitsCore_succ (b f n : Nat) (ds : List Char) :
    Nat.toDigitsCore b (f + 1) n ds =
      if n / b = 0 then Nat.digitChar (n % b) :: ds
      else Nat.toDigitsCore b f (n / b) (Nat.digitChar (n % b) :: ds) := by
  simp [Nat.toDigitsCore]

lemma parse_toDigitsCore :
    ∀ (fuel n : Nat) (acc : List Char), n < 10 ^ fuel →
      parseDec (Nat.toDigitsCore 10 fuel n acc) = n * 10 ^ acc.length + parseDec acc := by
  intro fuel
  induction fuel with
  | zero =>
    intro n acc h
    simp only [pow_zero, Nat.lt_one_iff] at h
    subst h
    simp [Nat.toDigitsCore]
  | succ f ih =>
    intro n acc h
    rw [toDigitsCore_succ]
    by_cases hd : n / 10 = 0
    · rw [if_pos hd]
      have hn : n < 10 := by omega
      rw [parseDec_cons, charVal_digitChar (n % 10) (by omega)]
      have hmod : n % 10 = n := by omega
      rw [hmod]
    · rw [if_neg hd]
      have hlt : n / 10 < 10 ^ f := by
        have hm : n < 10 ^ f * 10 := by
          rw [← pow_succ]
          exact h
        exact (Nat.div_lt_iff_lt_mul (by norm_num)).mpr hm
      rw [ih (n / 10) (Nat.digitChar (n % 10) :: acc) hlt]
      rw [parseDec_cons, charVal_digitChar (n % 10) (by omega)]
      have key : 10 * (n / 10) + n % 10 = n := Nat.div_add_mod n 10
      calc n / 10 * 10 ^ (Nat.digitChar (n % 10) :: acc).length +
            (n % 10 * 10 ^ acc.length + parseDec acc)
          = (10 * (n / 10) + n % 10) * 10 ^ acc.length + parseDec acc := by
            simp only [List.length_cons, pow_succ]
            ring
        _ = n * 10 ^ acc.length + parseDec acc := by rw [key]

lemma repr_data_eq (n : Nat) : (Nat.repr n).data = Nat.toDigitsCore 10 (n + 1) n [] := rfl

lemma parseDec_repr (n : Nat) : parseDec (Nat.repr n).data = n := by
  have h : n < 10 ^ (n + 1) :=
    lt_of_lt_of_le (Nat.lt_pow_self (by norm_num) n)
      (Nat.pow_le_pow_right (by norm_num) (Nat.le_succ n))
  rw [repr_data_eq, parse_toDigitsCore (n + 1) n [] h]
  simp [parseDec]

lemma repr_injective : Function.Injective Nat.repr := by
  intro m n h
  have hp := congrArg (fun s => parseDec s.data) h
  simpa [parseDec_repr] using hp

lemma toDigitsCore_no_dash :
    ∀ (fuel n : Nat) (acc : List Char), '-' ∉ acc → '-' ∉ Nat.toDigitsCore 10 fuel n acc := by
  intro fuel
  induction fuel with
  | zero =>
    intro n acc h
    simpa [Nat.toDigitsCore] using h
  | succ f ih =>
    intro n acc h
    rw [toDigitsCore_succ]
    by_cases hd : n / 10 = 0
    · rw [if_pos hd]
      intro hmem
      rcases List.mem_cons.mp hmem with h1 | h2
      · exact digitChar_ne_dash (n % 10) h1.symm
      · exact h h2
    · rw [if_neg hd]
      refine ih (n / 10) (Nat.digitChar (n % 10) :: acc) ?_
      intro hmem
      rcases List.mem_cons.mp hmem with h1 | h2
      · exact digitChar_ne_dash (n % 10) h1.symm
      · exact h h2

lemma repr_no_dash (n : Nat) : '-' ∉ (Nat.repr n).data := by
  rw [repr_data_eq]
  exact toDigitsCore_no_dash (n + 1) n [] (by simp)

lemma append_dash_inj :
    ∀ (a₁ a₂ r₁ r₂ : List Char), '-' ∉ a₁ → '-' ∉ a₂ →
      a₁ ++ '-' :: r₁ = a₂ ++ '-' :: r₂ → a₁ = a₂ ∧ r₁ = r₂ := by
  intro a₁
  induction a₁ with
  | nil =>
    intro a₂ r₁ r₂ _ h2 heq
    cases a₂ with
    | nil => simpa using heq
    | cons b t =>
      simp only [List.nil_append, List.cons_append, List.cons.injEq] at heq
      exact absurd (heq.1 ▸ List.mem_cons_self b t) h2
  | cons c t ih =>
    intro a₂ r₁ r₂ h1 h2 heq
    cases a₂ with
    | nil =>
      simp only [List.cons_append, List.nil_append, List.cons.injEq] at heq
      exact absurd (heq.1 ▸ List.mem_cons_self c t) h1
    | cons b t2 =>
      simp only [List.cons_append, List.cons.injEq] at heq
      obtain ⟨hcb, hrest⟩ := heq
      obtain ⟨ht, hr⟩ :=
        ih t2 r₁ r₂ (fun hm => h1 (List.mem_cons_of_mem c hm))
          (fun hm => h2 (List.mem_cons_of_mem b hm)) hrest
      exact ⟨by rw [hcb, ht], hr⟩

lemma mkUniqueId_inj (n₁ n₂ : Nat) (r₁ r₂ : String)
    (h : mkUniqueId n₁ r₁ = mkUniqueId n₂ r₂) : n₁ = n₂ ∧ r₁ = r₂ := by
  have hd := congrArg String.data h
  simp only [mkUniqueId, String.data_append] at hd
  rw [List.append_assoc, List.append_assoc] at hd
  have hd2 : (Nat.repr n₁).data ++ '-' :: r₁.data = (Nat.repr n₂).data ++ '-' :: r₂.data := by
    simpa using hd
  obtain ⟨ha, hr⟩ := append_dash_inj _ _ _ _ (repr_no_dash n₁) (repr_no_dash n₂) hd2
  exact ⟨repr_injective (String.ext ha), String.ext hr⟩

lemma mkUniqueId_pair_inj :
    Function.Injective (fun e : Nat × String => mkUniqueId e.1 e.2) := by
  intro a b h
  obtain ⟨h1, h2⟩ := mkUniqueId_inj a.1 b.1 a.2 b.2 h
  cases a
  cases b
  simp_all

lemma addObjects_objects (calls : List (String × PartialSceneObject)) (s : AppState) :
    (addObjects calls s).objects = s.objects ++ calls.map (fun c => mkNewObject c.1 c.2) := by
  induction calls generalizing s with
  | nil => simp [addObjects]
  | cons c t ih =>
    show (addObjects t (handleAddObject c.1 c.2 s)).objects = _
    rw [ih]
    simp [handleAddObject]

lemma handleUpdateObject_get (s : AppState) (tid : String) (u : PartialSceneObject)
    (j : Nat) (hj : j < s.objects.length) :
    (handleUpdateObject tid u s).objects[j]! =
      if (s.objects[j]!).id = tid then mergeObject (s.objects[j]!) u else s.objects[j]! := by
  have hj2 : j < (s.objects.map (fun o => if o.id = tid then mergeObject o u else o)).length := by
    simpa using hj
  show (s.objects.map (fun o => if o.id = tid then mergeObject o u else o))[j]! = _
  rw [getElem!_pos (s.objects.map (fun o => if o.id = tid then mergeObject o u else o)) j hj2,
    getElem!_pos s.objects j hj, List.getElem_map]

lemma update_map_noop (l : List SceneObject) (tid : String) (u : PartialSceneObject)
    (h : ∀ o ∈ l, o.id ≠ tid) :
    l.map (fun o => if o.id = tid then mergeObject o u else o) = l := by
  induction l with
  | nil => rfl
  | cons a t ih =>
    simp only [List.map_cons]
    rw [if_neg (h a (List.mem_cons_self a t)), ih (fun o ho => h o (List.mem_cons_of_mem a ho))]

lemma assembleGo_cons_found (i : String) (rest : List String) (n : Nat) (part : DropboxFile)
    (hp : SYSTEM_PARTS.find? (fun q => q.id == i) = some part) :
    assembleGo (i :: rest) n = assemblePayload part n :: assembleGo rest (n + 1) := by
  simp [assembleGo, hp]

lemma assembleGo_length :
    ∀ (sel : List String) (n : Nat),
      (∀ i ∈ sel, (SYSTEM_PARTS.find? (fun q => q.id == i)).isSome) →
      (assembleGo sel n).length = sel.length := by
  intro sel
  induction sel with
  | nil => intro n _; rfl
  | cons i rest ih =>
    intro n h
    obtain ⟨part, hp⟩ := Option.isSome_iff_exists.mp (h i (List.mem_cons_self i rest))
    rw [assembleGo_cons_found i rest n part hp]
    simp [ih (n + 1) (fun x hx => h x (List.mem_cons_of_mem i hx))]

lemma assembleGo_get :
    ∀ (sel : List String) (n j : Nat) (part : DropboxFile),
      (∀ i ∈ sel, (SYSTEM_PARTS.find? (fun q => q.id == i)).isSome) →
      j < sel.length →
      SYSTEM_PARTS.find? (fun q => q.id == sel[j]!) = some part →
      (assembleGo sel n)[j]! = assemblePayload part (n + j) := by
  intro sel
  induction sel with
  | nil =>
    intro n j part _ hj
    simp at hj
  | cons i rest ih =>
    intro n j part h hj hfind
    obtain ⟨p0, hp0⟩ := Option.isSome_iff_exists.mp (h i (List.mem_cons_self i rest))
    rw [assembleGo_cons_found i rest n p0 hp0]
    cases j with
    | zero =>
      have hsel : (i :: rest)[0]! = i := by
        rw [getElem!_pos (i :: rest) 0 (by simp)]
        exact List.getElem_cons_zero i rest (by simp)
      rw [hsel] at hfind
      have hpp : p0 = part := by
        rw [hp0] at hfind
        exact Option.some_inj.mp hfind
      have hlen2 : 0 < (assemblePayload p0 n :: assembleGo rest (n + 1)).length := by simp
      rw [getElem!_pos (assemblePayload p0 n :: assembleGo rest (n + 1)) 0 hlen2]
      simp [hpp]
    | succ k =>
      have hk : k < rest.length := by simpa using hj
      have hsel : (i :: rest)[k + 1]! = rest[k]! := by
        rw [getElem!_pos (i :: rest) (k + 1) (by simpa using hj), getElem!_pos rest k hk]
        exact List.getElem_cons_succ ..
      rw [hsel] at hfind
      have hlen2 : k + 1 < (assemblePayload p0 n :: assembleGo rest (n + 1)).length := by
        have := assembleGo_length rest (n + 1) (fun x hx => h x (List.mem_cons_of_mem i hx))
        simp [this, hk]
      have hlen3 : k < (assembleGo rest (n + 1)).length := by
        have := assembleGo_length rest (n + 1) (fun x hx => h x (List.mem_cons_of_mem i hx))
        simp [this, hk]
      rw [getElem!_pos (assemblePayload p0 n :: assembleGo rest (n + 1)) (k + 1) hlen2]
      simp only [List.getElem_cons_succ]
      rw [← getElem!_pos (assembleGo rest (n + 1)) k hlen3]
      rw [ih (n + 1) k part (fun x hx => h x (List.mem_cons_of_mem i hx)) hk hfind]
      congr 1
      omega

/-! ## Claim theorems -/

/-- C1: In measure mode, for every state of the pending-start slot, a first
click through `handleCanvasClick` records the clicked point as the pending
start, and a second click appends exactly one measurement whose `distance`
is the Euclidean norm of the difference of the two points and resets the
pending start to empty; the distance is invariant under swapping the two
points, and clicks at (0,0,0) and (3,4,0) give distance 5. -/
theorem measure_mode_two_click_measurement (p q : Vec3) (nid : String)
    (ms : List Measurement) (sel : Option String) :
    handleCanvasClick ToolMode.MEASURE nid p none ms sel = (some p, ms, sel) ∧
    handleCanvasClick ToolMode.MEASURE nid p (some q) ms sel =
      (none,
       ms ++ [{ id := nid, startPoint := q, endPoint := p, distance := dist3 q p }],
       sel) ∧
    dist3 q p = dist3 p q ∧
    dist3 ⟨0, 0, 0⟩ ⟨3, 4, 0⟩ = 5 := by
  refine ⟨rfl, rfl, ?_, ?_⟩
  · unfold dist3
    have hsym : dist3Sq q p = dist3Sq p q := by
      unfold dist3Sq
      ring
    rw [hsym]
  · unfold dist3
    have h25 : dist3Sq ⟨0, 0, 0⟩ ⟨3, 4, 0⟩ = 25 := by
      norm_num [dist3Sq]
    rw [h25, show ((25 : ℚ) : ℝ) = 5 ^ 2 by norm_num]
    exact Real.sqrt_sq (by norm_num)

/-- C2 counterexample: in MOVE mode a click on object `"b"` while `"a"` is
selected does change the selection (`sceneItemClickSelect` only suppresses
selection in MEASURE mode), refuting the claim that no click changes the
selection in move/rotate/scale modes. -/
theorem move_mode_click_changes_selection_cex :
    sceneItemClickSelect ToolMode.MOVE "b" (some "a") ≠ some "a" := by
  decide

/-- C2 amended: click-to-select is suppressed only in MEASURE mode; in
every other mode (select, move, rotate, scale) a click on a rendered
object re-picks that object as the selection. -/
theorem click_select_suppressed_only_in_measure (m : ToolMode) (objId : String)
    (sel : Option String) :
    (m ≠ ToolMode.MEASURE → sceneItemClickSelect m objId sel = some objId) ∧
    sceneItemClickSelect ToolMode.MEASURE objId sel = sel := by
  constructor
  · intro h
    simp [sceneItemClickSelect, h]
  · simp [sceneItemClickSelect]

/-- Witness for the amended C2 at concrete inputs. -/
theorem click_select_suppressed_only_in_measure_witness :
    sceneItemClickSelect ToolMode.MOVE "b" none = some "b" ∧
    sceneItemClickSelect ToolMode.MEASURE "b" (some "a") = some "a" :=
  ⟨(click_select_suppressed_only_in_measure ToolMode.MOVE "b" none).1 (by decide),
   (click_select_suppressed_only_in_measure ToolMode.MEASURE "b" (some "a")).2⟩

/-- C3: `handleAddObject` fills every unset field with its default (name
"New Object", type primitive, position/rotation (0,0,0), scale (1,1,1),
color white), stamps the supplied fresh id, appends the object at the end
of the store, selects it, and switches the mode to MOVE; adding one box
primitive to the empty initial state gives count 1, selection = new id and
mode MOVE. -/
theorem add_object_defaults_and_transitions (uid : String) (p : PartialSceneObject)
    (s : AppState) :
    (p.name = none → (mkNewObject uid p).name = "New Object") ∧
    (p.type = none → (mkNewObject uid p).type = ObjectKind.primitive) ∧
    (p.position = none → (mkNewObject uid p).position = ⟨0, 0, 0⟩) ∧
    (p.rotation = none → (mkNewObject uid p).rotation = ⟨0, 0, 0⟩) ∧
    (p.scale = none → (mkNewObject uid p).scale = ⟨1, 1, 1⟩) ∧
    (p.color = none → (mkNewObject uid p).color = "#ffffff") ∧
    (mkNewObject uid p).id = uid ∧
    (handleAddObject uid p s).objects = s.objects ++ [mkNewObject uid p] ∧
    (handleAddObject uid p s).selectedId = some uid ∧
    (handleAddObject uid p s).mode = ToolMode.MOVE ∧
    (handleAddObject uid
        { type := some ObjectKind.primitive, geometryType := some GeometryType.box }
        initialAppState).objects.length = 1 ∧
    (handleAddObject uid
        { type := some ObjectKind.primitive, geometryType := some GeometryType.box }
        initialAppState).selectedId = some uid ∧
    (handleAddObject uid
        { type := some ObjectKind.primitive, geometryType := some GeometryType.box }
        initialAppState).mode = ToolMode.MOVE := by
  refine ⟨?_, ?_, ?_, ?_, ?_, ?_, rfl, rfl, rfl, rfl, ?_, rfl, rfl⟩
  · intro h
    simp [mkNewObject, jsOr, h]
  · intro h
    simp [mkNewObject, h]
  · intro h
    simp [mkNewObject, h]
  · intro h
    simp [mkNewObject, h]
  · intro h
    simp [mkNewObject, h]
  · intro h
    simp [mkNewObject, jsOr, h]
  · simp [handleAddObject, initialAppState]

/-- Witness for C3 at concrete inputs. -/
theorem add_object_defaults_and_transitions_witness :
    (mkNewObject "1-a" {}).name = "New Object" ∧
    (mkNewObject "1-a" {}).position = ⟨0, 0, 0⟩ ∧
    (handleAddObject "1-a" {} initialAppState).selectedId = some "1-a" ∧
    (handleAddObject "1-a"
        { type := some ObjectKind.primitive, geometryType := some GeometryType.box }
        initialAppState).objects.length = 1 := by
  obtain ⟨h1, h2, h3, h4, h5, h6, h7, h8, h9, h10, h11, h12, h13⟩ :=
    add_object_defaults_and_transitions "1-a" {} initialAppState
  exact ⟨h1 rfl, h3 rfl, h9, h11⟩

/-- C10: an upload change event carrying no file is a no-op: no payload is
produced, no object URL is allocated, and the shell state is unchanged. -/
theorem upload_no_file_noop (mkObjectURL : UploadFile → String) (uid : String) (s : AppState) :
    handleUpload [] mkObjectURL = (none, []) ∧
    appUpload [] mkObjectURL uid s = (s, []) :=
  ⟨rfl, rfl⟩

/-- C9: under the click wiring as implemented, no click delivered in
MEASURE mode changes anything: the two handlers that would call
`handleCanvasClick` sit on a geometry-free invisible mesh and on a
childless group (both unreachable by ray cast, first two conjuncts), an
object-mesh click stops propagation and its guarded `onSelect` ignores
MEASURE mode, and the canvas-level handler acts only in SELECT mode — so
any sequence of MEASURE-mode clicks leaves the selection, the pending
start point and the measurement store exactly as they were. -/
theorem measure_mode_clicks_create_nothing (clicks : List ClickTarget) (s : ViewerState) :
    invisibleMeasureMeshGeometry = none ∧
    measureGroupChildCount = 0 ∧
    clicks.foldl (fun st t => viewerClick ToolMode.MEASURE t st) s = s := by
  refine ⟨rfl, rfl, ?_⟩
  have hfix : ∀ (t : ClickTarget) (st : ViewerState), viewerClick ToolMode.MEASURE t st = st := by
    intro t st
    cases t with
    | objectMesh objId point => simp [viewerClick, sceneItemClickSelect]
    | emptySpace => simp [viewerClick]
  induction clicks generalizing s with
  | nil => rfl
  | cons c t ih =>
    rw [List.foldl_cons, hfix c s]
    exact ih s

/-- C6: once the render call settles, a failure of any kind yields exactly
one alert ("Rendering failed. Please try again.") and one log, leaves the
render result untouched, and clears the rendering flag; a success also
clears the flag (guaranteed cleanup on both paths, the flag having been
set by `startRender`); a missing canvas aborts before touching anything. -/
theorem render_failure_cleanup (s : AppState) (outcome : Except String String) :
    (∀ e, outcome = Except.error e →
      (handleGenerateRender true outcome s).2.1 = ["Rendering failed. Please try again."] ∧
      (handleGenerateRender true outcome s).2.2 = 1 ∧
      (handleGenerateRender true outcome s).1.renderResult = s.renderResult ∧
      (handleGenerateRender true outcome s).1.isRendering = false) ∧
    (∀ r, outcome = Except.ok r →
      (handleGenerateRender true outcome s).1.isRendering = false ∧
      (handleGenerateRender true outcome s).1.renderResult = some r ∧
      (handleGenerateRender true outcome s).2.1 = [] ∧
      (handleGenerateRender true outcome s).2.2 = 0) ∧
    (startRender s).isRendering = true ∧
    handleGenerateRender false outcome s = (s, [], 0) := by
  refine ⟨?_, ?_, rfl, rfl⟩
  · intro e he
    subst he
    exact ⟨rfl, rfl, rfl, rfl⟩
  · intro r hr
    subst hr
    exact ⟨rfl, rfl, rfl, rfl⟩

/-- Witness for C6: a simulated network failure at the initial state. -/
theorem render_failure_cleanup_witness :
    (handleGenerateRender true (Except.error "network") initialAppState).2.1 =
      ["Rendering failed. Please try again."] ∧
    (handleGenerateRender true (Except.error "network") initialAppState).1.isRendering = false ∧
    (handleGenerateRender true (Except.error "network") initialAppState).1.renderResult = none := by
  have h := (render_failure_cleanup initialAppState (Except.error "network")).1 "network" rfl
  exact ⟨h.1, h.2.2.2, h.2.2.1⟩

/-- C7 counterexample: while the rendering flag is true the Generate
Render button is still not disabled — the `<button>` carries no `disabled`
attribute — refuting the claim that the control is disabled while a
request is outstanding. -/
theorem generate_render_not_disabled_cex :
    generateRenderButtonDisabled true = false :=
  rfl

/-- C7 amended: while a render request is outstanding the Generate Render
control is not disabled; instead the shell shows the full-screen rendering
modal overlay (fixed inset-0), which covers the toolbar and so prevents a
second submission from that control while the flag is set. -/
theorem rendering_blocks_via_modal (s : AppState) (h : s.isRendering = true) :
    renderModalVisible s = true ∧ generateRenderButtonDisabled s.isRendering = false := by
  constructor
  · simp [renderModalVisible, h]
  · rfl

/-- Witness for the amended C7 at a concrete rendering state. -/
theorem rendering_blocks_via_modal_witness :
    renderModalVisible { initialAppState with isRendering := true } = true ∧
    generateRenderButtonDisabled ({ initialAppState with isRendering := true }).isRendering =
      false :=
  rendering_blocks_via_modal { initialAppState with isRendering := true } rfl

/-- C4: `handleUpdateObject` keeps the store length, rewrites exactly the
entries whose id matches (merging only the fields present in the partial
and keeping every absent field), leaves every non-matching entry
untouched, is a whole-state no-op when no entry has the id, and never
changes the selection or the mode. -/
theorem update_object_frame (s : AppState) (tid : String) (u : PartialSceneObject) :
    (handleUpdateObject tid u s).objects.length = s.objects.length ∧
    (∀ j, j < s.objects.length →
      ((s.objects[j]!).id = tid →
        (handleUpdateObject tid u s).objects[j]! = mergeObject (s.objects[j]!) u) ∧
      ((s.objects[j]!).id ≠ tid →
        (handleUpdateObject tid u s).objects[j]! = s.objects[j]!)) ∧
    (∀ o : SceneObject,
      (u.id = none → (mergeObject o u).id = o.id) ∧
      (u.name = none → (mergeObject o u).name = o.name) ∧
      (∀ v, u.name = some v → (mergeObject o u).name = v) ∧
      (u.type = none → (mergeObject o u).type = o.type) ∧
      (∀ v, u.type = some v → (mergeObject o u).type = v) ∧
      (u.geometryType = none → (mergeObject o u).geometryType = o.geometryType) ∧
      (∀ v, u.geometryType = some v → (mergeObject o u).geometryType = some v) ∧
      (u.fileUrl = none → (mergeObject o u).fileUrl = o.fileUrl) ∧
      (∀ v, u.fileUrl = some v → (mergeObject o u).fileUrl = some v) ∧
      (u.position = none → (mergeObject o u).position = o.position) ∧
      (∀ v, u.position = some v → (mergeObject o u).position = v) ∧
      (u.rotation = none → (mergeObject o u).rotation = o.rotation) ∧
      (∀ v, u.rotation = some v → (mergeObject o u).rotation = v) ∧
      (u.scale = none → (mergeObject o u).scale = o.scale) ∧
      (∀ v, u.scale = some v → (mergeObject o u).scale = v) ∧
      (u.color = none → (mergeObject o u).color = o.color) ∧
      (∀ v, u.color = some v → (mergeObject o u).color = v)) ∧
    ((∀ o ∈ s.objects, o.id ≠ tid) → handleUpdateObject tid u s = s) ∧
    (handleUpdateObject tid u s).selectedId = s.selectedId ∧
    (handleUpdateObject tid u s).mode = s.mode := by
  refine ⟨by simp [handleUpdateObject], ?_, ?_, ?_, rfl, rfl⟩
  · intro j hj
    constructor
    · intro hid
      rw [handleUpdateObject_get s tid u j hj, if_pos hid]
    · intro hid
      rw [handleUpdateObject_get s tid u j hj, if_neg hid]
  · intro o
    refine ⟨?_, ?_, ?_, ?_, ?_, ?_, ?_, ?_, ?_, ?_, ?_, ?_, ?_, ?_, ?_, ?_, ?_⟩ <;>
      first
        | (intro h; simp [mergeObject, h])
        | (intro v h; simp [mergeObject, h])
  · intro h
    show { s with objects := _ } = s
    rw [update_map_noop s.objects tid u h]

/-- Witness for C4: a single-field position update on a two-object store,
and a no-op update with an unknown id. -/
theorem update_object_frame_witness :
    (handleUpdateObject "a" { position := some ⟨1, 2, 3⟩ }
        { initialAppState with objects := [mkNewObject "a" {}, mkNewObject "b" {}] }).objects[0]! =
      mergeObject (mkNewObject "a" {}) { position := some ⟨1, 2, 3⟩ } ∧
    (mergeObject (mkNewObject "a" {}) { position := some ⟨1, 2, 3⟩ }).position = ⟨1, 2, 3⟩ ∧
    (mergeObject (mkNewObject "a" {}) { position := some ⟨1, 2, 3⟩ }).color =
      (mkNewObject "a" {}).color ∧
    handleUpdateObject "zzz" { position := some ⟨1, 2, 3⟩ }
        { initialAppState with objects := [mkNewObject "a" {}, mkNewObject "b" {}] } =
      { initialAppState with objects := [mkNewObject "a" {}, mkNewObject "b" {}] } := by
  have h1 := update_object_frame
    { initialAppState with objects := [mkNewObject "a" {}, mkNewObject "b" {}] } "a"
    { position := some ⟨1, 2, 3⟩ }
  have h2 := update_object_frame
    { initialAppState with objects := [mkNewObject "a" {}, mkNewObject "b" {}] } "zzz"
    { position := some ⟨1, 2, 3⟩ }
  refine ⟨?_, ?_, ?_, ?_⟩
  · have hj := (h1.2.1 0 (by simp))
    have hid : ((([mkNewObject "a" {}, mkNewObject "b" {}] :
        List SceneObject))[0]!).id = "a" := by
      rw [getElem!_pos ([mkNewObject "a" {}, mkNewObject "b" {}] : List SceneObject) 0 (by simp)]
      rfl
    have := hj.1 hid
    simpa using this
  · exact ((h1.2.2.1 (mkNewObject "a" {})).2.2.2.2.2.2.2.2.2.2.1 ⟨1, 2, 3⟩ rfl)
  · exact ((h1.2.2.1 (mkNewObject "a" {})).2.2.2.2.2.2.2.2.2.2.2.2.2.2.2.1 rfl)
  · refine h2.2.2.2.1 ?_
    intro o ho
    rcases List.mem_cons.mp ho with h | h
    · rw [h]
      decide
    · rcases List.mem_cons.mp h with h | h
      · rw [h]
        decide
      · simp at h

/-- C5: for a selected set of k valid part ids, `handleAssemble` emits
exactly k `onAddObject` payloads, the j-th carrying the looked-up part
name and geometry, the fixed light gray, and an x offset of `j * 1.5`
(so consecutive payloads sit 1.5 units apart), and the selection set is
empty afterward; feeding the payloads through `handleAddObject` adds
exactly k objects to the store. -/
theorem assemble_k_parts (sel : List String) (s : AppState) (ids : List String)
    (h : ∀ i ∈ sel, (SYSTEM_PARTS.find? (fun q => q.id == i)).isSome)
    (hlen : ids.length = sel.length) :
    (handleAssemble sel).1.length = sel.length ∧
    (handleAssemble sel).2 = [] ∧
    (∀ j part, j < sel.length →
      SYSTEM_PARTS.find? (fun q => q.id == sel[j]!) = some part →
      (handleAssemble sel).1[j]! = assemblePayload part j ∧
      ((handleAssemble sel).1[j]!).position = some ⟨(j : ℚ) * (3 / 2), 0, 0⟩ ∧
      ((handleAssemble sel).1[j]!).name = some part.name ∧
      ((handleAssemble sel).1[j]!).geometryType = part.geometryType ∧
      ((handleAssemble sel).1[j]!).color = some "#e0e0e0") ∧
    (addObjects (ids.zip (handleAssemble sel).1) s).objects.length =
      s.objects.length + sel.length := by
  have hlen1 : (assembleGo sel 0).length = sel.length := assembleGo_length sel 0 h
  refine ⟨hlen1, rfl, ?_, ?_⟩
  · intro j part hj hfind
    have hg := assembleGo_get sel 0 j part h hj hfind
    rw [Nat.zero_add] at hg
    have hmain : (handleAssemble sel).1[j]! = assemblePayload part j := hg
    refine ⟨hmain, ?_, ?_, ?_, ?_⟩ <;> rw [hmain] <;> rfl
  · rw [addObjects_objects]
    simp only [List.length_append, List.length_map, List.length_zip]
    rw [show (handleAssemble sel).1 = assembleGo sel 0 from rfl, hlen1, hlen]
    simp

/-- Witness for C5: assembling the two selected parts p1 and p3. -/
theorem assemble_k_parts_witness :
    (handleAssemble ["p1", "p3"]).1.length = 2 ∧
    (handleAssemble ["p1", "p3"]).2 = [] ∧
    (addObjects (["1-a", "2-b"].zip (handleAssemble ["p1", "p3"]).1)
        initialAppState).objects.length = 0 + 2 := by
  have h := assemble_k_parts ["p1", "p3"] initialAppState ["1-a", "2-b"] (by decide) rfl
  exact ⟨h.1, h.2.1, h.2.2.2⟩

/-- C8: a finite sequence of `handleAddObject` calls starting from the
empty store, with the ids drawn through the generator
`` `${Date.now()}-${suffix}` `` from pairwise-distinct (clock, suffix)
draws, produces objects whose ids are exactly the generated ids in call
order, and those ids are pairwise distinct (the generator is injective in
its two inputs because the decimal clock part contains no dash). -/
theorem add_objects_unique_ids_in_order (entropy : List (Nat × String))
    (payloads : List PartialSceneObject)
    (hnd : entropy.Nodup) (hlen : entropy.length = payloads.length) :
    ((addObjects ((entropy.map (fun e => mkUniqueId e.1 e.2)).zip payloads)
        initialAppState).objects.map (fun o => o.id)) =
      entropy.map (fun e => mkUniqueId e.1 e.2) ∧
    ((addObjects ((entropy.map (fun e => mkUniqueId e.1 e.2)).zip payloads)
        initialAppState).objects.map (fun o => o.id)).Nodup := by
  have key : ((addObjects ((entropy.map (fun e => mkUniqueId e.1 e.2)).zip payloads)
      initialAppState).objects.map (fun o => o.id)) =
      entropy.map (fun e => mkUniqueId e.1 e.2) := by
    rw [addObjects_objects]
    show (([] : List SceneObject) ++ _).map (fun o => o.id) = _
    rw [List.nil_append, List.map_map]
    have hfst : (((entropy.map (fun e => mkUniqueId e.1 e.2)).zip payloads).map
        (fun c => (mkNewObject c.1 c.2).id)) =
        ((entropy.map (fun e => mkUniqueId e.1 e.2)).zip payloads).map Prod.fst := by
      exact List.map_congr_left (fun c _ => rfl)
    show (((entropy.map (fun e => mkUniqueId e.1 e.2)).zip payloads).map
        (fun c => (mkNewObject c.1 c.2).id)) = _
    rw [hfst]
    exact List.map_fst_zip _ _ (by simp [hlen])
  refine ⟨key, ?_⟩
  rw [key]
  exact hnd.map mkUniqueId_pair_inj

/-- Witness for C8: two adds with distinct (clock, suffix) draws. -/
theorem add_objects_unique_ids_in_order_witness :
    ((addObjects ((([(0, "a"), (1, "b")] : List (Nat × String)).map
        (fun e => mkUniqueId e.1 e.2)).zip [{}, {}]) initialAppState).objects.map
      (fun o => o.id)) =
      ([(0, "a"), (1, "b")] : List (Nat × String)).map (fun e => mkUniqueId e.1 e.2) ∧
    ((addObjects ((([(0, "a"), (1, "b")] : List (Nat × String)).map
        (fun e => mkUniqueId e.1 e.2)).zip [{}, {}]) initialAppState).objects.map
      (fun o => o.id)).Nodup :=
  add_objects_unique_ids_in_order [(0, "a"), (1, "b")] [{}, {}] (by decide) rfl

end Configurator
